import Mathlib

set_option maxRecDepth 4000

/-!
Verification development for the stereo-site molecular editor and
resolution/analysis orchestrator.

The data model follows the repository's type declarations (Atom, Bond,
Molecule, AnalysisResult, SearchResult, PhysicalProperties).  Positions are
embedded as an arbitrary coordinate type `α`: the canvas geometry uses `ℝ`
(idealising JavaScript's floating point numbers), the cache-key serialization
uses `ℤ`, and the PubChem structure parser uses `ℚ`.

Stateful UI code (the App component's orchestration handlers) is embedded as
explicit state-passing functions over an `AppState` record; asynchronous
provider calls become `Except`/value parameters, and the completion of a
pending analysis request is a state-update function applied when its response
arrives.
-/

/-- Atom record: id, element symbol (a string at runtime; the TypeScript
union is erased), 2D editor-space position, formal charge, lone pairs. -/
structure Atom (α : Type) where
  id : String
  element : String
  x : α
  y : α
  formalCharge : Int
  lonePairs : Nat
deriving Repr, DecidableEq

/-- Bond record: id, the two endpoint atom ids (`from`/`to` in the source;
`from` is a Lean keyword, hence `from_`), and a bond order/style string. -/
structure Bond where
  id : String
  from_ : String
  to_ : String
  type : String
deriving Repr, DecidableEq

/-- Molecule: an ordered list of atoms plus an ordered list of bonds. -/
structure Molecule (α : Type) where
  atoms : List (Atom α)
  bonds : List Bond
deriving Repr, DecidableEq

/-- `HIT_RADIUS = 18` from the canvas component. -/
def HIT_RADIUS : ℝ := 18

/-- `BOND_LENGTH = 55` from the canvas component. -/
def BOND_LENGTH : ℝ := 55

/-- The bonds incident to a given atom id:
`molecule.bonds.filter(b => b.from === atomId || b.to === atomId)`. -/
def incidentBonds (m : Molecule α) (atomId : String) : List Bond :=
  m.bonds.filter fun b => b.from_ == atomId || b.to_ == atomId

/-- Eraser pointer-down on an atom (handleMouseDown, eraser branch):
removes the atom and every bond in which it appears as `from` or `to`. -/
def eraseAtom (m : Molecule α) (atomId : String) : Molecule α :=
  { atoms := m.atoms.filter fun a => a.id != atomId,
    bonds := m.bonds.filter fun b => b.from_ != atomId && b.to_ != atomId }

/-- The duplicate-bond check of handleMouseUp:
`bonds.some(b => (b.from === dragStart && b.to === target) ||
(b.to === dragStart && b.from === target))`. -/
def bondExists (m : Molecule α) (dragStart targetId : String) : Bool :=
  m.bonds.any fun b =>
    (b.from_ == dragStart && b.to_ == targetId) ||
    (b.to_ == dragStart && b.from_ == targetId)

/-- The bond-tool-to-bond-type map (`typeMap`) used by the canvas handlers:
bond → single, double → double, triple → triple. -/
def bondTypeOfTool (tool : String) : String :=
  if tool == "bond" then "single"
  else if tool == "double" then "double"
  else if tool == "triple" then "triple"
  else "single"

/-- Completing a bond drag when the pointer-up hit test found an atom
(handleMouseUp, target-atom branch): if the target differs from the drag
origin and no bond between the unordered pair exists yet, append a new bond;
otherwise leave the molecule unchanged. -/
def completeBondToAtom (m : Molecule α) (dragStart targetId : String)
    (tool : String) (newBondId : String) : Molecule α :=
  if targetId != dragStart then
    if bondExists m dragStart targetId then m
    else { m with bonds := m.bonds ++
      [{ id := newBondId, from_ := dragStart, to_ := targetId,
         type := bondTypeOfTool tool }] }
  else m

/-- Two bonds connect the same unordered atom pair. -/
def samePair (b1 b2 : Bond) : Prop :=
  (b1.from_ = b2.from_ ∧ b1.to_ = b2.to_) ∨
  (b1.from_ = b2.to_ ∧ b1.to_ = b2.from_)

/-- At most one bond exists between any unordered atom pair. -/
def noDuplicateBonds (bonds : List Bond) : Prop :=
  bonds.Pairwise fun b1 b2 => ¬ samePair b1 b2

/-! ### Canvas geometry (model space uses ideal reals) -/

/-- Pointer-device-to-model mapping of getRelativePos:
`((raw.x - offset.x) / scale, (raw.y - offset.y) / scale)`. -/
noncomputable def screenToModel (offset : ℝ × ℝ) (scale : ℝ) (raw : ℝ × ℝ) : ℝ × ℝ :=
  ((raw.1 - offset.1) / scale, (raw.2 - offset.2) / scale)

/-- The screen position at which an atom is rendered under the view
transform: `model * scale + offset` (the inverse of getRelativePos). -/
noncomputable def atomScreenPos (offset : ℝ × ℝ) (scale : ℝ) (a : Atom ℝ) : ℝ × ℝ :=
  (a.x * scale + offset.1, a.y * scale + offset.2)

/-- The per-atom hit decision of getAtomAt:
`Math.sqrt(dx*dx + dy*dy) < HIT_RADIUS / scale` with `dx, dy` in model space. -/
def atomHitAt (scale : ℝ) (a : Atom ℝ) (pos : ℝ × ℝ) : Prop :=
  Real.sqrt ((a.x - pos.1) * (a.x - pos.1) + (a.y - pos.2) * (a.y - pos.2)) <
    HIT_RADIUS / scale

/-- `Math.atan2(y, x)`, embedded as the complex argument of `x + y*I`. -/
noncomputable def atan2 (y x : ℝ) : ℝ := Complex.arg ⟨x, y⟩

/-- The 60-degree snap of handleMouseUp: for fewer than 4 incident bonds the
raw angle is rounded to the nearest multiple of `π/3`, otherwise kept. -/
noncomputable def snapAngle (attached : ℕ) (angle : ℝ) : ℝ :=
  if attached < 4 then (round (angle / (Real.pi / 3)) : ℤ) * (Real.pi / 3)
  else angle

/-- Completing a bond drag released over empty space (handleMouseUp,
no-target branch): compute the pointer's approach angle from the drag-origin
atom, snap it when the origin has fewer than 4 incident bonds, and append a
new atom at `BOND_LENGTH` along that angle together with the new bond. -/
noncomputable def completeBondToEmpty (m : Molecule ℝ) (startAtom : Atom ℝ)
    (rawPos : ℝ × ℝ) (element : String) (tool : String)
    (newAtomId newBondId : String) : Molecule ℝ :=
  let attached := (incidentBonds m startAtom.id).length
  let angle := atan2 (rawPos.2 - startAtom.y) (rawPos.1 - startAtom.x)
  let snapped := snapAngle attached angle
  { atoms := m.atoms ++
      [{ id := newAtomId, element := element,
         x := startAtom.x + Real.cos snapped * BOND_LENGTH,
         y := startAtom.y + Real.sin snapped * BOND_LENGTH,
         formalCharge := 0, lonePairs := 0 }],
    bonds := m.bonds ++
      [{ id := newBondId, from_ := startAtom.id, to_ := newAtomId,
         type := bondTypeOfTool tool }] }

/-! ### Orchestrator data model -/

/-- Naming metadata attached to a SearchResult / AnalysisResult. -/
structure Metadata where
  smiles : String
  iupacName : String
  commonName : String
  formula : String
deriving Repr, DecidableEq

/-- A stereocenter entry of an AnalysisResult. -/
structure Stereocenter where
  atomId : String
  configuration : String
  logic : String
deriving Repr, DecidableEq

/-- VSEPR data for one atom. -/
structure VSEPRInfo where
  axeNotation : String
  lonePairs : Nat
  electronicGeometry : String
  molecularGeometry : String
  bondAngles : String
deriving Repr, DecidableEq

/-- Physical properties; every field is optional (a JS object with possibly
missing keys).  The empty object `{}` has every field absent. -/
structure PhysicalProperties where
  molecularWeight : Option String
  logP : Option String
  boilingPoint : Option String
  meltingPoint : Option String
  density : Option String
  hBondDonors : Option Nat
  hBondAcceptors : Option Nat
deriving Repr, DecidableEq

/-- The empty `PhysicalProperties` object `{}`. -/
def emptyProps : PhysicalProperties :=
  ⟨none, none, none, none, none, none, none⟩

/-- An isomer entry of an AnalysisResult. -/
structure IsomerInfo where
  name : String
  smiles : String
  type : String
  description : String
deriving Repr, DecidableEq

/-- A conformation entry of an AnalysisResult. -/
structure ConformationInfo where
  name : String
  smiles : String
  energyScore : String
  description : String
deriving Repr, DecidableEq

/-- The unified analysis result; `vsepr` is the atom-id-keyed record,
embedded as an association list (the empty record is `[]`). -/
structure AnalysisResult where
  stereocenters : List Stereocenter
  vsepr : List (String × VSEPRInfo)
  dipoleMoment : String
  educationalNote : String
  sdfData : String
  isomers : List IsomerInfo
  conformations : List ConformationInfo
  properties : PhysicalProperties
  metadata : Metadata
deriving Repr, DecidableEq

/-- A query-resolution result: a molecule plus naming metadata. -/
structure SearchResult where
  molecule : Molecule ℝ
  metadata : Metadata

/-- The App component's state relevant to the orchestrator. -/
structure AppState where
  molecule : Molecule ℝ
  metadata : Option Metadata
  analysis : Option AnalysisResult
  isAnalyzing : Bool
  errorMsg : Option String
  isFallbackMode : Bool
  selectedCentralAtom : Option String

/-- The initial App state (the useState initial values). -/
def initialAppState : AppState :=
  { molecule := { atoms := [], bonds := [] }, metadata := none,
    analysis := none, isAnalyzing := false, errorMsg := none,
    isFallbackMode := false, selectedCentralAtom := none }

/-- `metadata?.iupacName || metadata?.smiles || ""` with JavaScript falsiness
(a missing object and an empty string are both falsy). -/
def fallbackQuery (md : Option Metadata) : String :=
  match md with
  | none => ""
  | some md =>
    if md.iupacName != "" then md.iupacName
    else if md.smiles != "" then md.smiles
    else ""

/-- The state update applied when a primary analysis response arrives
(the success path of handleRunAnalysis): `setAnalysis(result)`,
`setMetadata(result.metadata)`, `setIsAnalyzing(false)`.  Two overlapping
analyze requests each apply this update when their own response resolves;
there is no request-generation token. -/
def applyAnalysisSuccess (st : AppState) (result : AnalysisResult) : AppState :=
  { st with analysis := some result, metadata := some result.metadata,
            isAnalyzing := false }

/-- The reduced AnalysisResult synthesized by the PubChem fallback branch of
handleRunAnalysis. -/
def mkFallbackResult (md : Metadata) (props : PhysicalProperties)
    (sdf : String) : AnalysisResult :=
  { stereocenters := [], vsepr := [],
    dipoleMoment := "Available in PubChem record",
    educationalNote := "AI analysis currently restricted due to quota. Displaying baseline structural and physical data from NIH PubChem databases.",
    sdfData := sdf, isomers := [], conformations := [],
    properties := props, metadata := md }

/-- handleRunAnalysis: the synchronous outcome of one analysis request.
`molArg` is the optional molecule argument (`mol || molecule`), `primary` the
outcome of the awaited Gemini call, `fallbackProps`/`fallbackSdf` the values
produced by the two PubChem fallback fetches (both of which are total: they
return `{}` resp. `""` on failure rather than throwing). -/
def handleRunAnalysis (st : AppState) (molArg : Option (Molecule ℝ))
    (primary : Except Unit AnalysisResult)
    (fallbackProps : PhysicalProperties) (fallbackSdf : String) : AppState :=
  let targetMol := molArg.getD st.molecule
  if targetMol.atoms.length = 0 then st
  else
    let st1 := { st with isAnalyzing := true, errorMsg := none,
                         isFallbackMode := false }
    let st2 :=
      match primary with
      | .ok result => applyAnalysisSuccess st1 result
      | .error _ =>
        match st1.metadata with
        | some md =>
          if fallbackQuery (some md) != "" then
            { st1 with
                isFallbackMode := true,
                analysis := some (mkFallbackResult md fallbackProps fallbackSdf),
                errorMsg := some "AI Analysis Limit Reached. Showing Baseline PubChem Data." }
          else
            { st1 with errorMsg := some "Analysis failed. Quota reached and no reference name found for fallback." }
        | none =>
          { st1 with errorMsg := some "Analysis failed. Quota reached and no reference name found for fallback." }
    { st2 with isAnalyzing := false }

/-- onSearchResult: adopt a resolved SearchResult (replace the molecule and
metadata, clear analysis, selection, error and fallback mode).  The deferred
centering/auto-analysis scheduled by setTimeout is a later asynchronous step,
not part of this synchronous update. -/
def onSearchResult (st : AppState) (result : SearchResult) : AppState :=
  { st with molecule := result.molecule, metadata := some result.metadata,
            analysis := none, selectedCentralAtom := none,
            errorMsg := none, isFallbackMode := false }

/-- handleSearchSubmit: try the Gemini resolver; on failure try the PubChem
resolver; if both fail surface the terminal not-found message. -/
def handleSearchSubmit (st : AppState)
    (primary secondary : Except Unit SearchResult) : AppState :=
  let st1 := { st with isAnalyzing := true, errorMsg := none }
  let st2 :=
    match primary with
    | .ok r => onSearchResult st1 r
    | .error _ =>
      match secondary with
      | .ok r =>
        { onSearchResult st1 r with
            errorMsg := some "Gemini Offline. Molecule resolved via PubChem." }
      | .error _ =>
        { st1 with errorMsg := some "Molecule not found in AI or PubChem databases." }
  { st2 with isAnalyzing := false }


/-! ### PubChem service -/

/-- Outcome of one `fetch` + JSON-parse step: a thrown network/parse error,
a non-OK HTTP response, or an OK response with a (defensively typed) body. -/
inductive FetchResult (α : Type) where
  | thrown : FetchResult α
  | notOk : FetchResult α
  | ok (body : α) : FetchResult α
deriving Repr, DecidableEq

/-- The property record `json.PropertyTable.Properties[0]` of the PubChem
property lookup; every field may be missing. -/
structure PubChemProps where
  MolecularWeight : Option String
  XLogP : Option Int
  HBondDonorCount : Option Nat
  HBondAcceptorCount : Option Nat
deriving Repr, DecidableEq

/-- fetchPubChemData: resolve a SMILES to a CID, then fetch properties by
CID; on the empty input, on any non-OK response, on a missing CID, on a
malformed property body, or on any thrown error, return the empty object
(the whole body is wrapped in try/catch, so the function never throws).
`cidResp` models the CID lookup (body: `IdentifierList?.CID?.[0]`), and
`propResp` the property lookup (body: `PropertyTable.Properties[0]`, `none`
when that access would throw). -/
def fetchPubChemData (smiles : String) (cidResp : FetchResult (Option Nat))
    (propResp : FetchResult (Option PubChemProps)) : PhysicalProperties :=
  if smiles == "" then emptyProps
  else
    match cidResp with
    | .thrown => emptyProps
    | .notOk => emptyProps
    | .ok none => emptyProps
    | .ok (some _) =>
      match propResp with
      | .thrown => emptyProps
      | .notOk => emptyProps
      | .ok none => emptyProps
      | .ok (some props) =>
        { molecularWeight := some (match props.MolecularWeight with
            | some w => if w == "" then "N/A" else w ++ " g/mol"
            | none => "N/A"),
          logP := some (match props.XLogP with
            | some v => toString v
            | none => "N/A"),
          boilingPoint := some "See PubChem Record",
          meltingPoint := some "See PubChem Record",
          density := none,
          hBondDonors := some (props.HBondDonorCount.getD 0),
          hBondAcceptors := some (props.HBondAcceptorCount.getD 0) }

/-- The CID lookup step failed (threw, non-OK, or no CID in the body). -/
def cidLookupFailed (r : FetchResult (Option Nat)) : Bool :=
  match r with
  | .ok (some _) => false
  | _ => true

/-- The property lookup step failed (threw, non-OK, or malformed body). -/
def propLookupFailed (r : FetchResult (Option PubChemProps)) : Bool :=
  match r with
  | .ok (some _) => false
  | _ => true

/-- The atomic-number-to-symbol map `symMap` of resolveMoleculeFromPubChem. -/
def symMap (n : Nat) : Option String :=
  match n with
  | 6 => some "C"
  | 1 => some "H"
  | 8 => some "O"
  | 7 => some "N"
  | 9 => some "F"
  | 17 => some "Cl"
  | 35 => some "Br"
  | 53 => some "I"
  | 15 => some "P"
  | 16 => some "S"
  | _ => none

/-- The bond-order-to-type map `typeMap` of resolveMoleculeFromPubChem. -/
def orderTypeMap (n : Nat) : Option String :=
  match n with
  | 1 => some "single"
  | 2 => some "double"
  | 3 => some "triple"
  | _ => none

/-- The ten supported element symbols. -/
def supportedElements : List String :=
  ["C", "H", "O", "N", "F", "Cl", "Br", "I", "P", "S"]

/-- The atom-parsing loop of resolveMoleculeFromPubChem: for each index of
the `aid` array, map the atomic number through `symMap` with default `'C'`
and transform the coordinates (`x*40 + 500`, `y*-40 + 400`). -/
def parsePubChemAtoms (aid elements : List Nat) (xs ys : List ℚ) :
    List (Atom ℚ) :=
  (List.range aid.length).map fun i =>
    { id := "pc-" ++ toString (aid.getD i 0),
      element := (symMap (elements.getD i 0)).getD "C",
      x := xs.getD i 0 * 40 + 500,
      y := ys.getD i 0 * (-40) + 400,
      formalCharge := 0, lonePairs := 0 }

/-- The bond-parsing loop of resolveMoleculeFromPubChem: for each index of
the `aid1` array, map the bond order through `typeMap` with default
`'single'`. -/
def parsePubChemBonds (aid1 aid2 order : List Nat) : List Bond :=
  (List.range aid1.length).map fun i =>
    { id := "pc-b-" ++ toString i,
      from_ := "pc-" ++ toString (aid1.getD i 0),
      to_ := "pc-" ++ toString (aid2.getD i 0),
      type := (orderTypeMap (order.getD i 0)).getD "single" }

/-! ### Analysis cache key (geminiService)

`analyzeMolecule` keys its cache by
`btoa(JSON.stringify(molecule)).slice(0, 48)`.  The serialization follows
`JSON.stringify` on the molecule state object: keys in insertion order
(`atoms` then `bonds`; atom keys `id, element, x, y, formalCharge,
lonePairs`; bond keys `id, from, to, type`).  Integer coordinates print as
plain decimal integers, exactly as JavaScript prints integral numbers. -/

/-- JSON string escaping (quote and backslash; other characters used by the
editor's identifiers need no escaping). -/
def jsonEscapeChar (c : Char) : String :=
  if c = '"' then "\\\""
  else if c = '\\' then "\\\\"
  else String.singleton c

/-- A JSON string literal. -/
def jsonStr (s : String) : String :=
  "\"" ++ String.join (s.toList.map jsonEscapeChar) ++ "\""

/-- `JSON.stringify` of an atom object. -/
def jsonAtom (a : Atom ℤ) : String :=
  "\x7b\"id\":" ++ jsonStr a.id ++
  ",\"element\":" ++ jsonStr a.element ++
  ",\"x\":" ++ toString a.x ++
  ",\"y\":" ++ toString a.y ++
  ",\"formalCharge\":" ++ toString a.formalCharge ++
  ",\"lonePairs\":" ++ toString a.lonePairs ++ "\x7d"

/-- `JSON.stringify` of a bond object. -/
def jsonBond (b : Bond) : String :=
  "\x7b\"id\":" ++ jsonStr b.id ++
  ",\"from\":" ++ jsonStr b.from_ ++
  ",\"to\":" ++ jsonStr b.to_ ++
  ",\"type\":" ++ jsonStr b.type ++ "\x7d"

/-- `JSON.stringify` of a molecule object. -/
def jsonMolecule (m : Molecule ℤ) : String :=
  "\x7b\"atoms\":[" ++ String.intercalate "," (m.atoms.map jsonAtom) ++
  "],\"bonds\":[" ++ String.intercalate "," (m.bonds.map jsonBond) ++ "]\x7d"

/-- The base64 alphabet used by `btoa`. -/
def base64Alphabet : List Char :=
  "ABCDEFGHIJKLMNOPQRSTUVWXYZabcdefghijklmnopqrstuvwxyz0123456789+/".toList

/-- The base64 digit for a 6-bit value. -/
def base64Char (n : Nat) : Char := base64Alphabet.getD n 'A'

/-- `btoa` over a byte list (standard base64 with `=` padding). -/
def base64Encode : List Nat → String
  | [] => ""
  | [b1] =>
    String.mk [base64Char (b1 / 4), base64Char (b1 % 4 * 16)] ++ "=="
  | [b1, b2] =>
    String.mk [base64Char (b1 / 4), base64Char (b1 % 4 * 16 + b2 / 16),
      base64Char (b2 % 16 * 4)] ++ "="
  | b1 :: b2 :: b3 :: rest =>
    String.mk [base64Char (b1 / 4), base64Char (b1 % 4 * 16 + b2 / 16),
      base64Char (b2 % 16 * 4 + b3 / 64), base64Char (b3 % 64)] ++
      base64Encode rest

/-- The bytes `btoa` encodes (all characters involved are ASCII). -/
def stringBytes (s : String) : List Nat := s.toList.map Char.toNat

/-- The analysis cache key: `btoa(JSON.stringify(molecule)).slice(0, 48)`. -/
def moleculeCacheKey (m : Molecule ℤ) : String :=
  (base64Encode (stringBytes (jsonMolecule m))).take 48

/-- First collision witness: a single-atom molecule. -/
def molKeyA : Molecule ℤ :=
  { atoms := [{ id := "a1", element := "C", x := 0, y := 0,
                formalCharge := 0, lonePairs := 0 }],
    bonds := [] }

/-- Second collision witness: the same first atom plus a second atom, whose
serialization differs from `molKeyA`'s only beyond the 36 bytes covered by
the 48-character base64 prefix. -/
def molKeyB : Molecule ℤ :=
  { atoms := [{ id := "a1", element := "C", x := 0, y := 0,
                formalCharge := 0, lonePairs := 0 },
              { id := "a2", element := "O", x := 55, y := 0,
                formalCharge := 0, lonePairs := 0 }],
    bonds := [] }

/-! ### Theorems -/

theorem length_filter_not_add {α : Type} (l : List α) (p : α → Bool) :
    (l.filter fun a => !(p a)).length + (l.filter p).length = l.length := by
  induction l with
  | nil => simp
  | cons a t ih =>
    cases h : p a <;> simp [List.filter_cons, h] <;> omega

/-- C3: completing a bond drag from X to Y when a bond between X and Y
already exists (in either orientation) leaves the molecule unchanged, and
the operation preserves the at-most-one-bond-per-unordered-pair invariant. -/
theorem c3_duplicate_bond_rejected (m : Molecule ℝ) (x y tool bid : String) :
    (bondExists m x y = true → completeBondToAtom m x y tool bid = m) ∧
    (noDuplicateBonds m.bonds →
      noDuplicateBonds (completeBondToAtom m x y tool bid).bonds) := by
  constructor
  · intro hex
    simp [completeBondToAtom, hex]
  · intro h
    unfold completeBondToAtom
    split
    · split
      · exact h
      · rename_i hne hex
        simp only [noDuplicateBonds]
        rw [List.pairwise_append]
        refine ⟨h, List.pairwise_singleton _ _, ?_⟩
        intro b hb b' hb'
        simp only [List.mem_singleton] at hb'
        subst hb'
        have hb2 : ¬((b.from_ = x ∧ b.to_ = y) ∨ (b.to_ = x ∧ b.from_ = y)) := by
          intro hor
          refine hex ?_
          simp only [bondExists, List.any_eq_true]
          refine ⟨b, hb, ?_⟩
          rcases hor with ⟨h1, h2⟩ | ⟨h1, h2⟩ <;> simp [h1, h2]
        simp only [samePair]
        tauto
    · exact h

/-- Witness for C3 at a concrete molecule already holding an a–b bond. -/
theorem c3_duplicate_bond_rejected_witness :
    bondExists (⟨[], [⟨"b0", "a", "b", "single"⟩]⟩ : Molecule ℝ) "a" "b" = true ∧
    completeBondToAtom (⟨[], [⟨"b0", "a", "b", "single"⟩]⟩ : Molecule ℝ)
        "a" "b" "bond" "nb" = ⟨[], [⟨"b0", "a", "b", "single"⟩]⟩ :=
  ⟨by decide,
   (c3_duplicate_bond_rejected ⟨[], [⟨"b0", "a", "b", "single"⟩]⟩
      "a" "b" "bond" "nb").1 (by decide)⟩

/-- C5: erasing atom A removes A and exactly the bonds incident to A: the
remaining bond count is the original count minus A's incident count, and an
atom (resp. bond) survives iff it is not A (resp. not incident to A). -/
theorem c5_erase_cascade (m : Molecule ℝ) (aid : String) :
    (eraseAtom m aid).bonds.length
        = m.bonds.length - (incidentBonds m aid).length ∧
    (∀ a : Atom ℝ, a ∈ (eraseAtom m aid).atoms ↔ a ∈ m.atoms ∧ a.id ≠ aid) ∧
    (∀ b : Bond, b ∈ (eraseAtom m aid).bonds ↔
        b ∈ m.bonds ∧ b.from_ ≠ aid ∧ b.to_ ≠ aid) := by
  refine ⟨?_, ?_, ?_⟩
  · have key : ∀ l : List Bond,
        (l.filter fun b => b.from_ != aid && b.to_ != aid).length +
        (l.filter fun b => b.from_ == aid || b.to_ == aid).length = l.length := by
      intro l
      induction l with
      | nil => simp
      | cons b t ih =>
        have hf : (b.from_ != aid) = !(b.from_ == aid) := rfl
        have ht : (b.to_ != aid) = !(b.to_ == aid) := rfl
        cases h1 : (b.from_ == aid) <;> cases h2 : (b.to_ == aid) <;>
          simp [List.filter_cons, hf, ht, h1, h2] <;> omega
    have := key m.bonds
    simp only [eraseAtom, incidentBonds]
    omega
  · intro a
    simp [eraseAtom, List.mem_filter]
  · intro b
    simp [eraseAtom, List.mem_filter, and_assoc]

/-- C4: releasing a bond drag over empty space appends one new atom at
distance `BOND_LENGTH` from the drag-origin atom; when the origin has fewer
than 4 incident bonds the placement angle is the raw pointer angle rounded
to the nearest multiple of 60° (`π/3`), and with 4 or more incident bonds it
is the raw pointer angle unsnapped. -/
theorem c4_empty_release_angle (m : Molecule ℝ) (startAtom : Atom ℝ)
    (rawPos : ℝ × ℝ) (el tool nid bid : String) :
    ∃ a : Atom ℝ,
      (completeBondToEmpty m startAtom rawPos el tool nid bid).atoms
          = m.atoms ++ [a] ∧
      (a.x - startAtom.x) ^ 2 + (a.y - startAtom.y) ^ 2 = BOND_LENGTH ^ 2 ∧
      ((incidentBonds m startAtom.id).length < 4 →
        ∃ k : ℤ,
          k = round (atan2 (rawPos.2 - startAtom.y) (rawPos.1 - startAtom.x)
                / (Real.pi / 3)) ∧
          a.x = startAtom.x + Real.cos (k * (Real.pi / 3)) * BOND_LENGTH ∧
          a.y = startAtom.y + Real.sin (k * (Real.pi / 3)) * BOND_LENGTH) ∧
      (4 ≤ (incidentBonds m startAtom.id).length →
        a.x = startAtom.x +
          Real.cos (atan2 (rawPos.2 - startAtom.y) (rawPos.1 - startAtom.x))
            * BOND_LENGTH ∧
        a.y = startAtom.y +
          Real.sin (atan2 (rawPos.2 - startAtom.y) (rawPos.1 - startAtom.x))
            * BOND_LENGTH) := by
  have hdist : ∀ t : ℝ,
      (startAtom.x + Real.cos t * BOND_LENGTH - startAtom.x) ^ 2 +
        (startAtom.y + Real.sin t * BOND_LENGTH - startAtom.y) ^ 2
        = BOND_LENGTH ^ 2 := by
    intro t
    have h : (startAtom.x + Real.cos t * BOND_LENGTH - startAtom.x) ^ 2 +
        (startAtom.y + Real.sin t * BOND_LENGTH - startAtom.y) ^ 2
        = (Real.sin t ^ 2 + Real.cos t ^ 2) * BOND_LENGTH ^ 2 := by ring
    rw [h, Real.sin_sq_add_cos_sq, one_mul]
  unfold completeBondToEmpty
  refine ⟨_, rfl, ?_, ?_, ?_⟩
  · dsimp only
    exact hdist _
  · intro h
    dsimp only
    refine ⟨round (atan2 (rawPos.2 - startAtom.y) (rawPos.1 - startAtom.x)
      / (Real.pi / 3)), rfl, ?_, ?_⟩ <;>
      rw [snapAngle, if_pos h]
  · intro h
    have hn : ¬ (incidentBonds m startAtom.id).length < 4 := by omega
    dsimp only
    constructor <;> rw [snapAngle, if_neg hn]

/-- Witness for C4: a drag from an isolated atom at the origin towards
`(1, 0)`; the origin has 0 incident bonds, so the snap branch applies. -/
theorem c4_empty_release_angle_witness :
    (incidentBonds (⟨[⟨"s", "C", 0, 0, 0, 0⟩], []⟩ : Molecule ℝ) "s").length < 4 ∧
    ∃ a : Atom ℝ,
      (completeBondToEmpty ⟨[⟨"s", "C", 0, 0, 0, 0⟩], []⟩ ⟨"s", "C", 0, 0, 0, 0⟩
          (1, 0) "C" "bond" "n" "nb").atoms
        = [⟨"s", "C", 0, 0, 0, 0⟩] ++ [a] ∧
      ∃ k : ℤ, a.x = (⟨"s", "C", 0, 0, 0, 0⟩ : Atom ℝ).x +
                  Real.cos (k * (Real.pi / 3)) * BOND_LENGTH ∧
               a.y = (⟨"s", "C", 0, 0, 0, 0⟩ : Atom ℝ).y +
                  Real.sin (k * (Real.pi / 3)) * BOND_LENGTH := by
  refine ⟨by simp [incidentBonds], ?_⟩
  obtain ⟨a, ha, _, hsnap, _⟩ := c4_empty_release_angle
    ⟨[⟨"s", "C", 0, 0, 0, 0⟩], []⟩ ⟨"s", "C", 0, 0, 0, 0⟩ (1, 0) "C" "bond" "n" "nb"
  obtain ⟨k, _, hx, hy⟩ := hsnap (by simp [incidentBonds])
  exact ⟨a, ha, k, hx, hy⟩

theorem atomHit_screen_iff (s : ℝ) (hs : 0 < s) (a : Atom ℝ) (o d : ℝ × ℝ) :
    atomHitAt s a (screenToModel o s (atomScreenPos o s a + d)) ↔
      Real.sqrt (d.1 ^ 2 + d.2 ^ 2) < HIT_RADIUS := by
  have hsne : s ≠ 0 := ne_of_gt hs
  unfold atomHitAt screenToModel atomScreenPos
  simp only [Prod.fst_add, Prod.snd_add]
  have e1 : a.x - (a.x * s + o.1 + d.1 - o.1) / s = -(d.1 / s) := by
    field_simp
    ring
  have e2 : a.y - (a.y * s + o.2 + d.2 - o.2) / s = -(d.2 / s) := by
    field_simp
    ring
  rw [e1, e2]
  have e3 : -(d.1 / s) * -(d.1 / s) + -(d.2 / s) * -(d.2 / s)
      = (d.1 ^ 2 + d.2 ^ 2) / s ^ 2 := by
    field_simp
    ring
  rw [e3, Real.sqrt_div (by positivity), Real.sqrt_sq hs.le]
  exact div_lt_div_iff_of_pos_right hs

/-- C6 counterexample: at view scale 1 a pointer at screen offset (17, 0)
from an atom is a hit (17 < 18), but at scale 2·1 with the offset scaled to
(2·17, 0) = (34, 0) it is not (the hit radius is fixed at 18 screen pixels),
so scaling both the view and the screen offset by k = 2 changes the
decision. -/
theorem c6_scale_invariance_cex :
    atomHitAt 1 ⟨"a", "C", 0, 0, 0, 0⟩
      (screenToModel (0, 0) 1
        (atomScreenPos (0, 0) 1 ⟨"a", "C", 0, 0, 0, 0⟩ + (17, 0))) ∧
    ¬ atomHitAt 2 ⟨"a", "C", 0, 0, 0, 0⟩
      (screenToModel (0, 0) 2
        (atomScreenPos (0, 0) 2 ⟨"a", "C", 0, 0, 0, 0⟩ + (34, 0))) := by
  constructor
  · rw [atomHit_screen_iff 1 (by norm_num) ⟨"a", "C", 0, 0, 0, 0⟩ (0, 0) (17, 0)]
    have h17 : Real.sqrt (((17, 0) : ℝ × ℝ).1 ^ 2 + ((17, 0) : ℝ × ℝ).2 ^ 2)
        = 17 := by
      rw [show (((17, 0) : ℝ × ℝ).1 ^ 2 + ((17, 0) : ℝ × ℝ).2 ^ 2)
        = (17 : ℝ) ^ 2 by norm_num]
      exact Real.sqrt_sq (by norm_num)
    rw [h17, HIT_RADIUS]
    norm_num
  · rw [atomHit_screen_iff 2 (by norm_num) ⟨"a", "C", 0, 0, 0, 0⟩ (0, 0) (34, 0)]
    have h34 : Real.sqrt (((34, 0) : ℝ × ℝ).1 ^ 2 + ((34, 0) : ℝ × ℝ).2 ^ 2)
        = 34 := by
      rw [show (((34, 0) : ℝ × ℝ).1 ^ 2 + ((34, 0) : ℝ × ℝ).2 ^ 2)
        = (34 : ℝ) ^ 2 by norm_num]
      exact Real.sqrt_sq (by norm_num)
    rw [h34, HIT_RADIUS]
    norm_num

/-- C6 amended: the hit decision depends only on the screen-space distance
being below the fixed hit radius, so a pointer at a given screen-space
offset d from an atom is a hit at scale s iff a pointer at the same screen
offset d is a hit at scale k·s (for any view offsets). -/
theorem c6_hit_screen_radius (a : Atom ℝ) (s k : ℝ) (o1 o2 d : ℝ × ℝ)
    (hs1 : (0.2 : ℝ) ≤ s) (_hs2 : s ≤ 5) (hk : 0 < k) :
    (atomHitAt s a (screenToModel o1 s (atomScreenPos o1 s a + d)) ↔
      Real.sqrt (d.1 ^ 2 + d.2 ^ 2) < HIT_RADIUS) ∧
    (atomHitAt s a (screenToModel o1 s (atomScreenPos o1 s a + d)) ↔
      atomHitAt (k * s) a
        (screenToModel o2 (k * s) (atomScreenPos o2 (k * s) a + d))) := by
  have hs : (0 : ℝ) < s := lt_of_lt_of_le (by norm_num) hs1
  refine ⟨atomHit_screen_iff s hs a o1 d, ?_⟩
  rw [atomHit_screen_iff s hs a o1 d,
    atomHit_screen_iff (k * s) (by positivity) a o2 d]

/-- Witness for the amended C6 at s = 1, k = 2, d = (3, 4). -/
theorem c6_hit_screen_radius_witness :
    (0.2 : ℝ) ≤ 1 ∧ (1 : ℝ) ≤ 5 ∧ (0 : ℝ) < 2 ∧
    (atomHitAt 1 ⟨"a", "C", 0, 0, 0, 0⟩
        (screenToModel (5, 7) 1
          (atomScreenPos (5, 7) 1 ⟨"a", "C", 0, 0, 0, 0⟩ + (3, 4))) ↔
      atomHitAt (2 * 1) ⟨"a", "C", 0, 0, 0, 0⟩
        (screenToModel (9, 11) (2 * 1)
          (atomScreenPos (9, 11) (2 * 1) ⟨"a", "C", 0, 0, 0, 0⟩ + (3, 4)))) :=
  ⟨by norm_num, by norm_num, by norm_num,
   (c6_hit_screen_radius ⟨"a", "C", 0, 0, 0, 0⟩ 1 2 (5, 7) (9, 11) (3, 4)
      (by norm_num) (by norm_num) (by norm_num)).2⟩

/-- C1: when the primary analysis fails on a molecule with at least one atom
and prior naming metadata with an IUPAC name or SMILES is available,
handleRunAnalysis adopts a reduced AnalysisResult with empty stereocenters,
an empty VSEPR record, the secondary provider's properties and 3D payload,
and sets the degraded/fallback flag. -/
theorem c1_analyze_fallback (st : AppState) (mol : Molecule ℝ)
    (props : PhysicalProperties) (sdf : String) (md : Metadata)
    (hmol : 0 < mol.atoms.length)
    (hmd : st.metadata = some md)
    (hq : md.iupacName ≠ "" ∨ md.smiles ≠ "") :
    ∃ r : AnalysisResult,
      (handleRunAnalysis st (some mol) (Except.error ()) props sdf).analysis
          = some r ∧
      r.stereocenters = [] ∧
      r.vsepr = [] ∧
      r.properties = props ∧
      r.sdfData = sdf ∧
      (handleRunAnalysis st (some mol) (Except.error ()) props sdf).isFallbackMode
          = true := by
  have hfq : (fallbackQuery (some md) != "") = true := by
    unfold fallbackQuery
    rcases hq with h | h
    · simp only [bne_iff_ne, ne_eq]
      split
      · exact h
      · simp_all
    · by_cases h2 : md.iupacName = ""
      · simp [h2, h]
      · simp [h2]
  unfold handleRunAnalysis
  rw [Option.getD_some, if_neg (by omega : ¬ mol.atoms.length = 0)]
  dsimp only
  rw [hmd]
  dsimp only
  rw [if_pos hfq]
  exact ⟨mkFallbackResult md props sdf, rfl, rfl, rfl, rfl, rfl, rfl⟩

/-- Witness for C1: a one-atom molecule with prior metadata for ethanol, a
failing primary provider, and concrete secondary baseline data. -/
theorem c1_analyze_fallback_witness :
    ∃ r : AnalysisResult,
      (handleRunAnalysis
          { initialAppState with
              metadata := some ⟨"CCO", "ethanol", "ethanol", "C2H6O"⟩ }
          (some ⟨[⟨"a1", "C", 0, 0, 0, 0⟩], []⟩) (Except.error ())
          { emptyProps with molecularWeight := some "46.07 g/mol" }
          "SDF-DATA").analysis = some r ∧
      r.stereocenters = [] ∧
      r.vsepr = [] ∧
      r.properties = { emptyProps with molecularWeight := some "46.07 g/mol" } ∧
      r.sdfData = "SDF-DATA" ∧
      (handleRunAnalysis
          { initialAppState with
              metadata := some ⟨"CCO", "ethanol", "ethanol", "C2H6O"⟩ }
          (some ⟨[⟨"a1", "C", 0, 0, 0, 0⟩], []⟩) (Except.error ())
          { emptyProps with molecularWeight := some "46.07 g/mol" }
          "SDF-DATA").isFallbackMode = true :=
  c1_analyze_fallback
    { initialAppState with
        metadata := some ⟨"CCO", "ethanol", "ethanol", "C2H6O"⟩ }
    ⟨[⟨"a1", "C", 0, 0, 0, 0⟩], []⟩
    { emptyProps with molecularWeight := some "46.07 g/mol" } "SDF-DATA"
    ⟨"CCO", "ethanol", "ethanol", "C2H6O"⟩
    (by simp) rfl (Or.inl (by decide))

/-- C2 counterexample: with a failing primary resolver and a succeeding
PubChem resolver, handleSearchSubmit leaves the degraded/fallback flag
(`isFallbackMode`, the boolean the UI reads) at `false` — it signals the
fallback only through the status string — contradicting the claim that the
flag is set to true. -/
theorem c2_resolve_fallback_flag_cex :
    (handleSearchSubmit initialAppState (Except.error ())
        (Except.ok ⟨⟨[⟨"pc-1", "C", 0, 0, 0, 0⟩], []⟩,
          ⟨"C(C1C(C(C(C(O1)O)O)O)O)O", "glucose", "glucose",
            "C6H12O6"⟩⟩)).isFallbackMode = false := rfl

/-- C2 amended: when the primary resolver fails and the secondary succeeds,
handleSearchSubmit adopts the secondary SearchResult and surfaces the
"Gemini Offline" status string while `isFallbackMode` remains false; when
both fail, the terminal not-found message is surfaced and no molecule,
metadata or analysis is adopted. -/
theorem c2_resolve_fallback (st : AppState) (r : SearchResult) :
    ((handleSearchSubmit st (Except.error ()) (Except.ok r)).molecule
        = r.molecule ∧
      (handleSearchSubmit st (Except.error ()) (Except.ok r)).metadata
        = some r.metadata ∧
      (handleSearchSubmit st (Except.error ()) (Except.ok r)).errorMsg
        = some "Gemini Offline. Molecule resolved via PubChem." ∧
      (handleSearchSubmit st (Except.error ()) (Except.ok r)).isFallbackMode
        = false) ∧
    ((handleSearchSubmit st (Except.error ()) (Except.error ())).molecule
        = st.molecule ∧
      (handleSearchSubmit st (Except.error ()) (Except.error ())).metadata
        = st.metadata ∧
      (handleSearchSubmit st (Except.error ()) (Except.error ())).analysis
        = st.analysis ∧
      (handleSearchSubmit st (Except.error ()) (Except.error ())).errorMsg
        = some "Molecule not found in AI or PubChem databases.") :=
  ⟨⟨rfl, rfl, rfl, rfl⟩, ⟨rfl, rfl, rfl, rfl⟩⟩

/-- A minimal concrete AnalysisResult distinguished by its note text. -/
def analysisOutcome (tag : String) : AnalysisResult :=
  { stereocenters := [], vsepr := [], dipoleMoment := "",
    educationalNote := tag, sdfData := "", isomers := [], conformations := [],
    properties := emptyProps, metadata := ⟨"", "", "", ""⟩ }

/-- C7 counterexample: two analyze requests with no generation token; the
first request's response arrives after the second's, so the completions
apply in the order [second, first] and the finally adopted analysis is the
first request's outcome, not the second's. -/
theorem c7_stale_overwrite_cex :
    (([analysisOutcome "second", analysisOutcome "first"].foldl
        applyAnalysisSuccess initialAppState).analysis
      = some (analysisOutcome "first")) ∧
    analysisOutcome "first" ≠ analysisOutcome "second" :=
  ⟨rfl, by decide⟩

/-- C7 amended: handleRunAnalysis tracks no request generation, so the last
response to arrive always wins: after any completion sequence ending with
result r, the adopted analysis is r (the second request's outcome is kept
only when responses arrive in issue order). -/
theorem c7_last_response_wins (st : AppState) (events : List AnalysisResult)
    (r : AnalysisResult) :
    ((events ++ [r]).foldl applyAnalysisSuccess st).analysis = some r := by
  rw [List.foldl_append]
  rfl

/-- C8: fetchPubChemData is total and returns the empty properties object on
the empty input and on every failure of either lookup step (thrown error,
non-OK response, missing CID, malformed property body); it never throws. -/
theorem c8_fetch_empty_on_failure (smiles : String)
    (cidResp : FetchResult (Option Nat))
    (propResp : FetchResult (Option PubChemProps))
    (h : smiles = "" ∨ cidLookupFailed cidResp = true ∨
         propLookupFailed propResp = true) :
    fetchPubChemData smiles cidResp propResp = emptyProps := by
  by_cases hs : smiles = ""
  · simp [fetchPubChemData, hs]
  · have hbne : (smiles == "") = false := by
      simpa [beq_iff_eq] using hs
    rcases h with h | h | h
    · exact absurd h hs
    · rcases cidResp with _ | _ | cbody
      · simp [fetchPubChemData, hbne]
      · simp [fetchPubChemData, hbne]
      · rcases cbody with _ | c
        · simp [fetchPubChemData, hbne]
        · simp [cidLookupFailed] at h
    · rcases cidResp with _ | _ | cbody
      · simp [fetchPubChemData, hbne]
      · simp [fetchPubChemData, hbne]
      · rcases cbody with _ | c
        · simp [fetchPubChemData, hbne]
        · rcases propResp with _ | _ | pbody
          · simp [fetchPubChemData, hbne]
          · simp [fetchPubChemData, hbne]
          · rcases pbody with _ | p
            · simp [fetchPubChemData, hbne]
            · simp [propLookupFailed] at h

/-- Witness for C8 at the empty input with thrown lookups. -/
theorem c8_fetch_empty_on_failure_witness :
    fetchPubChemData "" FetchResult.thrown FetchResult.thrown = emptyProps :=
  c8_fetch_empty_on_failure "" FetchResult.thrown FetchResult.thrown
    (Or.inl rfl)

/-- C9: the analysis cache key (first 48 characters of the base64 encoding
of the molecule's JSON serialization) is not injective: the two distinct
molecules `molKeyA` and `molKeyB` share the same cache key, so a cached
AnalysisResult for one can be served for the other. -/
theorem c9_cache_key_collision :
    moleculeCacheKey molKeyA = moleculeCacheKey molKeyB ∧
    molKeyA ≠ molKeyB := by
  exact ⟨by decide, by decide⟩

theorem symMap_getD_mem (n : Nat) :
    (symMap n).getD "C" ∈ supportedElements := by
  unfold symMap supportedElements
  split <;> simp

theorem symMap_unsupported (n : Nat)
    (h : n ∉ ([6, 1, 8, 7, 9, 17, 35, 53, 15, 16] : List Nat)) :
    symMap n = none := by
  unfold symMap
  split <;> simp_all

theorem orderTypeMap_getD_mem (n : Nat) :
    (orderTypeMap n).getD "single" ∈ ["single", "double", "triple"] := by
  unfold orderTypeMap
  split <;> simp

theorem orderTypeMap_unsupported (n : Nat)
    (h : n ∉ ([1, 2, 3] : List Nat)) : orderTypeMap n = none := by
  unfold orderTypeMap
  split <;> simp_all

/-- C10: every atom produced by the PubChem structure parser carries one of
the ten supported element symbols, any atomic number outside the supported
subset mapping to "C"; every bond carries one of the three supported types,
any order outside 1–3 mapping to "single". -/
theorem c10_pubchem_defaults (aid elements : List Nat) (xs ys : List ℚ)
    (aid1 aid2 order : List Nat) :
    (∀ a ∈ parsePubChemAtoms aid elements xs ys,
        a.element ∈ supportedElements) ∧
    (∀ i, i < aid.length →
      elements.getD i 0 ∉ ([6, 1, 8, 7, 9, 17, 35, 53, 15, 16] : List Nat) →
      ∃ a, (parsePubChemAtoms aid elements xs ys)[i]? = some a ∧
        a.element = "C") ∧
    (∀ b ∈ parsePubChemBonds aid1 aid2 order,
        b.type ∈ ["single", "double", "triple"]) ∧
    (∀ i, i < aid1.length → order.getD i 0 ∉ ([1, 2, 3] : List Nat) →
      ∃ b, (parsePubChemBonds aid1 aid2 order)[i]? = some b ∧
        b.type = "single") := by
  refine ⟨?_, ?_, ?_, ?_⟩
  · intro a ha
    simp only [parsePubChemAtoms, List.mem_map, List.mem_range] at ha
    obtain ⟨i, _, rfl⟩ := ha
    exact symMap_getD_mem _
  · intro i hi hns
    refine ⟨{ id := "pc-" ++ toString (aid.getD i 0),
              element := (symMap (elements.getD i 0)).getD "C",
              x := xs.getD i 0 * 40 + 500,
              y := ys.getD i 0 * (-40) + 400,
              formalCharge := 0, lonePairs := 0 }, ?_, ?_⟩
    · unfold parsePubChemAtoms
      rw [List.getElem?_map, List.getElem?_range hi]
      rfl
    · dsimp only
      rw [symMap_unsupported _ hns]
      rfl
  · intro b hb
    simp only [parsePubChemBonds, List.mem_map, List.mem_range] at hb
    obtain ⟨i, _, rfl⟩ := hb
    exact orderTypeMap_getD_mem _
  · intro i hi hns
    refine ⟨{ id := "pc-b-" ++ toString i,
              from_ := "pc-" ++ toString (aid1.getD i 0),
              to_ := "pc-" ++ toString (aid2.getD i 0),
              type := (orderTypeMap (order.getD i 0)).getD "single" }, ?_, ?_⟩
    · unfold parsePubChemBonds
      rw [List.getElem?_map, List.getElem?_range hi]
      rfl
    · dsimp only
      rw [orderTypeMap_unsupported _ hns]
      rfl

/-- Witness for C10: atomic number 99 maps to "C" and bond order 9 maps to
"single". -/
theorem c10_pubchem_defaults_witness :
    (∃ a, (parsePubChemAtoms [1] [99] [0] [0])[0]? = some a ∧
      a.element = "C") ∧
    (∃ b, (parsePubChemBonds [1] [1] [9])[0]? = some b ∧
      b.type = "single") :=
  ⟨(c10_pubchem_defaults [1] [99] [0] [0] [1] [1] [9]).2.1 0 (by decide)
      (by decide),
   (c10_pubchem_defaults [1] [99] [0] [0] [1] [1] [9]).2.2.2 0 (by decide)
      (by decide)⟩
